import Mathlib

/-!
Verification of the `iterqueue` library (`iterqueue/iterqueue.py`).

The library is a subclass of Python's `queue.Queue` that adds a lifecycle
(`Status`), a writer count maintained by the context-manager methods
`__enter__`/`__exit__`, a one-way cancellation flag, and iteration support
(`__next__`, `iter_nowait`).

Shallow embedding conventions:
* The queue instance is a pure record `Iterqueue α`; every method becomes a
  function from the record to a result (and a new record where the method
  mutates the instance).
* The underlying `queue.Queue` storage is a `List α` (FIFO: enqueue at the
  tail, dequeue at the head) together with `maxsize` (`0` = unbounded, as in
  Python).  `writers` is `Int`, since the Python counter can in principle go
  negative when `__exit__` is called without a matching `__enter__`.
* Exceptions become an inductive `PyExc`.  The class `Canceled` is declared
  in the source as `class Canceled(StopIteration)`, so the subclass test
  `isinstance(e, StopIteration)` is modelled by `PyExc.matchesStopIteration`.
* Time is modelled in milliseconds as `Nat`; `SPIN_TIME = 0.05 s` becomes
  `spinTime = 50`.  `time.sleep` advances the clock by `spinTime`.
* The unbounded `while True` loop of `get` is modelled with a fuel
  parameter: one unit of fuel per loop iteration.  Running out of fuel
  yields the distinguished outcome `spinning`, meaning the caller is still
  blocked in the poll loop (it is not an exception).
-/

set_option autoImplicit false

universe u

/-- `Status` of the queue: `class Status(enum.Enum)` with the four members
`Unstarted`, `Started`, `Stopped`, `Canceled`. -/
inductive Status where
  | Unstarted
  | Started
  | Stopped
  | Canceled
  deriving DecidableEq, Repr

/-- The exceptions that can surface from the methods of `Iterqueue`:
`queue.Empty`, `queue.Full`, `StopIteration`, the library's own
`Canceled` (declared as `class Canceled(StopIteration)`), and
`RuntimeError` (produced by PEP 479 when a `StopIteration` escapes a
generator frame). -/
inductive PyExc where
  | empty
  | full
  | stopIteration
  | canceled
  | runtimeError
  deriving DecidableEq, Repr

namespace PyExc

/-- `isinstance(e, StopIteration)`: true for `StopIteration` itself and for
its subclass `Canceled`. -/
def matchesStopIteration : PyExc → Bool
  | stopIteration => true
  | canceled => true
  | _ => false

/-- PEP 479 (Python ≥ 3.7): a `StopIteration` (or subclass, hence also
`Canceled`) about to bubble out of a generator frame is replaced by
`RuntimeError`; any other exception escapes unchanged. -/
def escapeGenerator (e : PyExc) : PyExc :=
  if e.matchesStopIteration then runtimeError else e

end PyExc

/-- `SPIN_TIME = 0.05` seconds, in milliseconds. -/
def spinTime : Nat := 50

/-- The state of an `Iterqueue` instance:
* `status`  — the private `__status` field;
* `writers` — the private `__writers` counter;
* `canceledFlag` — the private `__canceled` `threading.Event` (set/unset);
* `storage` — the inherited `queue.Queue` buffer, head = next item out;
* `maxsize` — the inherited capacity bound (`0` means unbounded). -/
structure Iterqueue (α : Type u) where
  status : Status
  writers : Int
  canceledFlag : Bool
  storage : List α
  maxsize : Nat
  deriving DecidableEq, Repr

namespace Iterqueue

variable {α : Type u}

/-- `Iterqueue(maxsize)`: `__init__` sets `__status = Status.Unstarted`,
a cleared `__canceled` event, zero writers, and an empty buffer. -/
def mk0 (maxsize : Nat) : Iterqueue α :=
  { status := .Unstarted, writers := 0, canceledFlag := false,
    storage := [], maxsize := maxsize }

/-- The `canceled` property: `self.__canceled.is_set()`. -/
def canceled (s : Iterqueue α) : Bool :=
  s.canceledFlag

/-- `__bool__`: `return self.canceled`. -/
def toBool (s : Iterqueue α) : Bool :=
  s.canceled

/-- `cancel()`: `self.__canceled.set(); self.__status = Status.Canceled`. -/
def cancel (s : Iterqueue α) : Iterqueue α :=
  { s with canceledFlag := true, status := .Canceled }

/-- `__enter__`: increments `__writers`; if `__status != Status.Started`,
sets `__status = Status.Started`.  (No check of `Canceled`.) -/
def enterScope (s : Iterqueue α) : Iterqueue α :=
  { s with
    writers := s.writers + 1,
    status := if s.status ≠ .Started then .Started else s.status }

/-- `__exit__`: decrements `__writers`; if the result is `< 1`, sets
`__status = Status.Stopped`.  (No check of `Canceled`.) -/
def exitScope (s : Iterqueue α) : Iterqueue α :=
  { s with
    writers := s.writers - 1,
    status := if s.writers - 1 < 1 then .Stopped else s.status }

/-- Python truthiness of the `timeout` argument (`None` or a number):
`None` and `0` are falsy. -/
def truthyTimeout : Option Nat → Bool
  | none => false
  | some t => t ≠ 0

/-- Line 77 of `get`:
`deadline = time.time() + timeout if block and timeout else None`. -/
def mkDeadline (block : Bool) (timeout : Option Nat) (now : Nat) : Option Nat :=
  if block ∧ truthyTimeout timeout then some (now + timeout.getD 0) else none

/-- `queue.Queue.full()` for the storage: `maxsize > 0` and the buffer
holds at least `maxsize` items. -/
def storageFull (s : Iterqueue α) : Bool :=
  0 < s.maxsize ∧ s.maxsize ≤ s.storage.length

/-- What a single iteration of `get`'s `while True` loop decides to do. -/
inductive StepResult (α : Type u) where
  | ret (item : α) (s : Iterqueue α)
  | raise (e : PyExc)
  | sleepRetry
  deriving DecidableEq, Repr

/-- One iteration of the `while True` loop in `get` (lines 78–96):
1. `if self.__status == Status.Canceled: raise Canceled(...)`;
2. `return super().get(block=False)` — succeeds iff the buffer is nonempty
   (a nonblocking dequeue of the head), else raises `queue.Empty`;
3. on `queue.Empty`:
   `if self.__status == Status.Stopped: raise StopIteration()`;
   `elif deadline and time.time() < deadline: time.sleep(SPIN_TIME); continue`;
   `elif block and not deadline: time.sleep(SPIN_TIME); continue`;
   `else: raise` (re-raise the `queue.Empty`).
A `deadline` is a positive clock value whenever present, so its Python
truthiness coincides with `Option.isSome`. -/
def getStep (s : Iterqueue α) (block : Bool) (deadline : Option Nat)
    (now : Nat) : StepResult α :=
  if s.status = .Canceled then .raise .canceled
  else
    match s.storage with
    | item :: rest => .ret item { s with storage := rest }
    | [] =>
      if s.status = .Stopped then .raise .stopIteration
      else if deadline.isSome ∧ now < deadline.getD 0 then .sleepRetry
      else if block ∧ deadline = none then .sleepRetry
      else .raise .empty

/-- Outcome of running `get`'s loop with a given amount of fuel.  `sleeps`
counts how many times `time.sleep(SPIN_TIME)` ran before the outcome.
`spinning` means the fuel ran out with the caller still in the poll loop. -/
inductive GetOutcome (α : Type u) where
  | ok (item : α) (s : Iterqueue α) (sleeps : Nat)
  | err (e : PyExc) (sleeps : Nat)
  | spinning (sleeps : Nat)
  deriving DecidableEq, Repr

/-- The `while True` loop of `get`, one unit of fuel per iteration; each
`sleepRetry` advances the clock by `spinTime` and increments `sleeps`. -/
def getLoop (s : Iterqueue α) (block : Bool) (deadline : Option Nat) :
    Nat → Nat → Nat → GetOutcome α
  | _, sleeps, 0 => .spinning sleeps
  | now, sleeps, fuel + 1 =>
    match getStep s block deadline now with
    | .ret item s' => .ok item s' sleeps
    | .raise e => .err e sleeps
    | .sleepRetry => getLoop s block deadline (now + spinTime) (sleeps + 1) fuel

/-- `get(self, block=True, timeout=None)` (lines 75–96): computes the
deadline, then runs the poll loop. -/
def get (s : Iterqueue α) (block : Bool) (timeout : Option Nat)
    (now : Nat) (fuel : Nat) : GetOutcome α :=
  getLoop s block (mkDeadline block timeout now) now 0 fuel

/-- `get_nowait()`: `return self.get(block=False)`.  With `block = False`
the loop never sleeps (both retry guards are false), so one unit of fuel
always decides the call; `get_nowait_eq_get` below proves the fuel and the
clock are irrelevant. -/
def get_nowait (s : Iterqueue α) : GetOutcome α :=
  get s false none 0 1

/-- `__next__`: `return self.get()` — `block = True`, `timeout = None`. -/
def nextItem (s : Iterqueue α) (now : Nat) (fuel : Nat) : GetOutcome α :=
  get s true none now fuel

/-- Outcome of `put`: `ok` carries the new state and whether the
`Unstarted` misuse warning was emitted; `err` carries the exception and the
warning flag (the warning is emitted before the delegated enqueue runs);
`blocked` means `super().put` is waiting on the storage's `not_full`
condition (a blocking enqueue on a full bounded queue — an unabortable
wait outside the poll loop, which no claim exercises). -/
inductive PutOutcome (α : Type u) where
  | ok (s : Iterqueue α) (warned : Bool)
  | err (e : PyExc) (warned : Bool)
  | blocked (warned : Bool)
  deriving DecidableEq, Repr

/-- `put(self, *args, **kwargs)` (lines 101–106):
`if self.__status == Status.Canceled: raise Canceled(...)`;
`elif self.__status == Status.Unstarted: warnings.warn(...)`;
`return super().put(*args, **kwargs)`.  The inherited
`queue.Queue.put(item, block)` appends to the buffer, raising `queue.Full`
when the queue is bounded and full and `block` is false, and waiting on
`not_full` when `block` is true. -/
def put (s : Iterqueue α) (item : α) (block : Bool) : PutOutcome α :=
  if s.status = .Canceled then .err .canceled false
  else
    let warned := s.status = .Unstarted
    if storageFull s then
      if block then .blocked warned else .err .full warned
    else .ok { s with storage := s.storage ++ [item] } warned

/-- `put_nowait(self, item)`: `return super().put_nowait(item)`.  CPython's
`queue.Queue.put_nowait` is `return self.put(item, block=False)`, and the
dynamic dispatch on `self` lands back on the override `Iterqueue.put` —
so `put_nowait` runs `put`'s `Canceled` check (the repository's
`test_cancel` relies on exactly this). -/
def put_nowait (s : Iterqueue α) (item : α) : PutOutcome α :=
  put s item false

/-- How a run of the generator `iter_nowait` ends, as seen by the caller
driving it: either the generator returns (the caller's loop ends normally)
or an exception reaches the caller. -/
inductive IterOutcome where
  | normal
  | raised (e : PyExc)
  deriving DecidableEq, Repr

/-- `get_nowait` never ends an iteration in the sleep branches: with
`block = False` and no deadline both retry guards of the loop body are
false. -/
theorem getStep_nowait_no_retry (s : Iterqueue α) (now : Nat) :
    getStep s false none now ≠ StepResult.sleepRetry (α := α) := by
  unfold getStep
  by_cases hc : s.status = .Canceled <;> simp [hc]
  cases s.storage <;> simp
  by_cases hs : s.status = .Stopped <;> simp [hs]

/-- `get_nowait` (i.e. `get(block=False)`) is decided by the first loop
iteration: its result does not depend on the clock or on any extra fuel,
and it never sleeps. -/
theorem get_nowait_eq_get (s : Iterqueue α) (timeout : Option Nat)
    (now fuel : Nat) :
    get s false timeout now (fuel + 1) = get_nowait s := by
  unfold get_nowait get mkDeadline getLoop
  simp only [Bool.false_eq_true, false_and, if_neg, reduceIte]
  have h := getStep_nowait_no_retry s now
  have h0 := getStep_nowait_no_retry s 0
  cases hstep : getStep s false none now <;>
    cases hstep0 : getStep s false none 0 <;>
    simp_all [getStep]

/-- If `get_nowait` returns an item, it is the head of the buffer and the
returned state holds the tail. -/
theorem get_nowait_ok_storage {s s' : Iterqueue α} {x : α} {k : Nat}
    (h : get_nowait s = .ok x s' k) : s.storage = x :: s'.storage := by
  unfold get_nowait get mkDeadline getLoop getStep at h
  by_cases hc : s.status = .Canceled <;> simp [hc] at h
  rcases hsto : s.storage with _ | ⟨y, rest⟩ <;> simp [hsto] at h
  · by_cases hs : s.status = .Stopped <;> simp [hs] at h
  · obtain ⟨hx, hs', _⟩ := h
    subst hx
    rw [← hs']

/-- `iter_nowait` (lines 118–126):
```
try:
    while True:
        yield self.get_nowait()
except Canceled:
    raise
except StopIteration:
    pass
```
The run is modelled as the pair (items the caller received, how the run
ended).  `except Canceled: raise` re-raises `Canceled`; an exception the
`try` does not catch (in particular `queue.Empty`) escapes as well; in both
cases the exception leaves the generator frame through
`PyExc.escapeGenerator` (PEP 479 turns an escaping `StopIteration` —
`Canceled` included — into `RuntimeError`).  `except StopIteration: pass`
lets the generator return, which the caller sees as a normal end.  The
`spinning` arm is unreachable: `get_nowait` never sleeps
(`getStep_nowait_no_retry`). -/
def iter_nowait (s : Iterqueue α) : List α × IterOutcome :=
  match h : get_nowait s with
  | .ok x s' _ =>
    let r := iter_nowait s'
    (x :: r.1, r.2)
  | .err e _ =>
    if e = .canceled then ([], .raised e.escapeGenerator)
    else if e.matchesStopIteration then ([], .normal)
    else ([], .raised e.escapeGenerator)
  | .spinning _ => ([], .normal)
termination_by s.storage.length
decreasing_by
  have hh := get_nowait_ok_storage h
  simp [hh]

/-- Outcome of a caller's `for x in q:` loop, with the items collected so
far: `done` means the `for` statement ended normally (its `__next__` call
raised an instance of `StopIteration` — the subclass `Canceled` included),
`raised` means an exception propagated out of the loop, `stillBlocked`
means the fuel ran out with the reader still waiting inside `get`. -/
inductive ForOutcome (α : Type u) where
  | done (collected : List α)
  | raised (e : PyExc) (collected : List α)
  | stillBlocked (collected : List α)
  deriving DecidableEq, Repr

/-- A caller's `for x in q:` loop over the blocking iterator:
`__iter__` returns the queue itself and each step calls
`__next__ = get(block=True, timeout=None)`.  The `for` statement ends
normally exactly when the step raises an instance of `StopIteration`
(subclasses included), and propagates any other exception.  Each unit of
fuel drives one poll of the `get` loop. -/
def forLoop : Nat → Iterqueue α → List α → ForOutcome α
  | 0, _, acc => .stillBlocked acc
  | fuel + 1, s, acc =>
    match nextItem s 0 1 with
    | .ok x s' _ => forLoop fuel s' (acc ++ [x])
    | .err e _ => if e.matchesStopIteration then .done acc else .raised e acc
    | .spinning _ => forLoop fuel s acc

/-- Driver for a producer running `for x in items: q.put(x)`: the state
after the puts, plus the first exception if one was raised.  (`blocked`
cannot occur on an unbounded queue; a single-threaded run of a blocking
put on a full queue would never return, which the driver reports as
`Full`.) -/
def putSeq : Iterqueue α → List α → Iterqueue α × Option PyExc
  | s, [] => (s, none)
  | s, x :: rest =>
    match put s x true with
    | .ok s' _ => putSeq s' rest
    | .err e _ => (s, some e)
    | .blocked _ => (s, some .full)

/-- Driver for `with q: for x in items: q.put(x)` — `__enter__`, the puts,
then `__exit__` (which the `with` statement runs on every exit path). -/
def runWriterScope (s : Iterqueue α) (items : List α) :
    Iterqueue α × Option PyExc :=
  let r := putSeq (enterScope s) items
  (exitScope r.1, r.2)

/-- Driver for several writer scopes run one after the other. -/
def runScopes : Iterqueue α → List (List α) → Iterqueue α × Option PyExc
  | s, [] => (s, none)
  | s, items :: rest =>
    match runWriterScope s items with
    | (s', none) => runScopes s' rest
    | (s', some e) => (s', some e)

/-- Driver for a reader performing `n` successive blocking `get()` calls:
the items received in order, plus the first exception if one was raised.
On a nonempty buffer a blocking `get` returns within its first poll, so
each step runs with one unit of fuel; a step still spinning (impossible in
the theorems below, where the buffer is long enough) is reported as
`Empty`. -/
def getMany : Iterqueue α → Nat → List α × Option PyExc
  | _, 0 => ([], none)
  | s, n + 1 =>
    match get s true none 0 1 with
    | .ok x s' _ =>
      let r := getMany s' n
      (x :: r.1, r.2)
    | .err e _ => ([], some e)
    | .spinning _ => ([], some .empty)

/-- The loop body of `get` raises `Canceled` whenever the status is
`Canceled`, before anything else is considered. -/
theorem getStep_canceled {s : Iterqueue α} (h : s.status = .Canceled)
    (block : Bool) (deadline : Option Nat) (now : Nat) :
    getStep s block deadline now = .raise .canceled := by
  simp [getStep, h]

/-- `get` on a canceled queue raises `Canceled` on its first loop
iteration — for every buffer content, `block`, `timeout`, and clock,
with no sleep. -/
theorem get_canceled {s : Iterqueue α} (h : s.status = .Canceled)
    (block : Bool) (timeout : Option Nat) (now fuel : Nat) :
    get s block timeout now (fuel + 1) = .err .canceled 0 := by
  unfold get getLoop
  rw [getStep_canceled h]

/-- `get` on a `Stopped` queue with an empty buffer raises
`StopIteration` on its first loop iteration — for every `block`,
`timeout`, and clock, with no sleep. -/
theorem get_stopped_empty {s : Iterqueue α} (hst : s.status = .Stopped)
    (he : s.storage = []) (block : Bool) (timeout : Option Nat)
    (now fuel : Nat) :
    get s block timeout now (fuel + 1) = .err .stopIteration 0 := by
  unfold get getLoop getStep
  simp [hst, he]

/-- With an empty buffer and a status that is neither `Stopped` nor
`Canceled`, the loop body with `block = True` and no deadline decides to
sleep and retry. -/
theorem getStep_spins {s : Iterqueue α} (he : s.storage = [])
    (h1 : s.status ≠ .Stopped) (h2 : s.status ≠ .Canceled) (now : Nat) :
    getStep s true none now = StepResult.sleepRetry (α := α) := by
  simp [getStep, he, h1, h2]

/-- An infinite-block `get` (no deadline) on an empty queue that is
neither `Stopped` nor `Canceled` is still polling when the fuel runs out,
having slept exactly once per loop iteration. -/
theorem getLoop_spins {s : Iterqueue α} (he : s.storage = [])
    (h1 : s.status ≠ .Stopped) (h2 : s.status ≠ .Canceled) :
    ∀ fuel now sleeps,
      getLoop s true none now sleeps fuel = .spinning (sleeps + fuel) := by
  intro fuel
  induction fuel with
  | zero => intro now sleeps; simp [getLoop]
  | succ n ih =>
    intro now sleeps
    unfold getLoop
    rw [getStep_spins he h1 h2, ih]
    simp
    omega

end Iterqueue

open Iterqueue in
/-- C4: after `cancel()` the status is `Canceled`, and in that state every
`put`, `put_nowait`, `get`, `get_nowait`, and iteration step (`__next__`)
fails with `Canceled` — for every buffer content (items may still be
buffered), every `block`/`timeout` combination, and on the very first loop
iteration of `get` (`getStep`, the loop body, raises `Canceled` before
attempting a dequeue or any other outcome).  None of these failing calls
produces a new queue state, so every subsequent call of one of these
operations fails the same way. -/
theorem canceled_blocks_all_consumer_ops {α : Type u} (s : Iterqueue α) (x : α) :
    (cancel s).status = .Canceled ∧
    (∀ block, put (cancel s) x block = .err .canceled false) ∧
    put_nowait (cancel s) x = .err .canceled false ∧
    (∀ block deadline now, getStep (cancel s) block deadline now = .raise .canceled) ∧
    (∀ block timeout now fuel,
      get (cancel s) block timeout now (fuel + 1) = .err .canceled 0) ∧
    get_nowait (cancel s) = .err .canceled 0 ∧
    (∀ now fuel, nextItem (cancel s) now (fuel + 1) = .err .canceled 0) := by
  have hc : (cancel s).status = .Canceled := rfl
  refine ⟨hc, ?_, ?_, ?_, ?_, ?_, ?_⟩
  · intro block; simp [put, hc]
  · simp [put_nowait, put, hc]
  · intro block deadline now; exact getStep_canceled hc block deadline now
  · intro block timeout now fuel; exact get_canceled hc block timeout now fuel
  · have := get_canceled hc false none 0 0
    simpa [get_nowait] using this
  · intro now fuel; exact get_canceled hc true none now fuel

open Iterqueue in
/-- C5: a blocking `get` — any `block` flag, any timeout, any clock — on a
queue whose status is `Stopped` and whose buffer is empty raises
`StopIteration` (`EndOfSequence`) on the first loop iteration, with zero
sleeps: the call never waits for a future refill. -/
theorem stopped_empty_get_ends_without_wait {α : Type u} (s : Iterqueue α)
    (hst : s.status = .Stopped) (he : s.storage = []) :
    ∀ (block : Bool) (timeout : Option Nat) (now fuel : Nat),
      get s block timeout now (fuel + 1) = .err .stopIteration 0 :=
  fun block timeout now fuel => get_stopped_empty hst he block timeout now fuel

/-- C5 witness. -/
theorem stopped_empty_get_ends_without_wait_witness :
    (⟨.Stopped, 0, false, ([] : List Nat), 0⟩ : Iterqueue Nat).status = .Stopped ∧
    Iterqueue.get (⟨.Stopped, 0, false, ([] : List Nat), 0⟩ : Iterqueue Nat)
      true (some 100) 7 4 = .err .stopIteration 0 :=
  ⟨rfl, stopped_empty_get_ends_without_wait _ rfl rfl true (some 100) 7 3⟩

open Iterqueue in
/-- C6: on an empty queue that is neither `Stopped` nor `Canceled`,
`get(block=False)` — any timeout, any clock — raises `queue.Empty`
(`WouldBlock`) on the first loop iteration with zero sleeps, and
`get_nowait()` is that same call. -/
theorem nonblocking_get_empty_fails_immediately {α : Type u} (s : Iterqueue α)
    (he : s.storage = []) (h1 : s.status ≠ .Stopped) (h2 : s.status ≠ .Canceled) :
    (∀ (timeout : Option Nat) (now fuel : Nat),
      Iterqueue.get s false timeout now (fuel + 1) = .err .empty 0) ∧
    get_nowait s = .err .empty 0 := by
  have hnw : get_nowait s = .err .empty 0 := by
    unfold get_nowait Iterqueue.get mkDeadline getLoop getStep
    simp [he, h1, h2]
  exact ⟨fun timeout now fuel => (get_nowait_eq_get s timeout now fuel).trans hnw, hnw⟩

/-- C6 witness. -/
theorem nonblocking_get_empty_fails_immediately_witness :
    (⟨.Started, 1, false, ([] : List Nat), 0⟩ : Iterqueue Nat).storage = [] ∧
    (⟨.Started, 1, false, ([] : List Nat), 0⟩ : Iterqueue Nat).status ≠ .Stopped ∧
    (⟨.Started, 1, false, ([] : List Nat), 0⟩ : Iterqueue Nat).status ≠ .Canceled ∧
    (Iterqueue.get (⟨.Started, 1, false, ([] : List Nat), 0⟩ : Iterqueue Nat)
        false (some 30) 5 1 = .err .empty 0 ∧
      Iterqueue.get_nowait (⟨.Started, 1, false, ([] : List Nat), 0⟩ : Iterqueue Nat) =
        .err .empty 0) :=
  ⟨rfl, by decide, by decide,
    (nonblocking_get_empty_fails_immediately _ rfl (by decide) (by decide)).1 (some 30) 5 0,
    (nonblocking_get_empty_fails_immediately _ rfl (by decide) (by decide)).2⟩

open Iterqueue in
/-- C10: `get(block=True, timeout=0)` computes no deadline — line 77's
`block and timeout` is false because `0` is falsy — so on an empty queue
that is neither `Stopped` nor `Canceled` the call takes the infinite-block
branch: after any number of loop iterations it is still polling, having
slept one poll interval per iteration, and it never returns `TimedOut` or
`WouldBlock` (both surfaced as `queue.Empty`). -/
theorem timeout_zero_get_blocks_forever {α : Type u} (s : Iterqueue α)
    (he : s.storage = []) (h1 : s.status ≠ .Stopped) (h2 : s.status ≠ .Canceled)
    (now : Nat) :
    mkDeadline true (some 0) now = none ∧
    ∀ fuel, Iterqueue.get s true (some 0) now fuel = .spinning fuel := by
  have hd : mkDeadline true (some 0) now = none := by
    simp [mkDeadline, truthyTimeout]
  refine ⟨hd, fun fuel => ?_⟩
  unfold Iterqueue.get
  rw [hd]
  simpa using getLoop_spins he h1 h2 fuel now 0

/-- C10 witness. -/
theorem timeout_zero_get_blocks_forever_witness :
    (⟨.Unstarted, 0, false, ([] : List Nat), 0⟩ : Iterqueue Nat).storage = [] ∧
    (⟨.Unstarted, 0, false, ([] : List Nat), 0⟩ : Iterqueue Nat).status ≠ .Stopped ∧
    (⟨.Unstarted, 0, false, ([] : List Nat), 0⟩ : Iterqueue Nat).status ≠ .Canceled ∧
    Iterqueue.mkDeadline true (some 0) 3 = none ∧
    Iterqueue.get (⟨.Unstarted, 0, false, ([] : List Nat), 0⟩ : Iterqueue Nat)
      true (some 0) 3 6 = .spinning 6 :=
  ⟨rfl, by decide, by decide,
    (timeout_zero_get_blocks_forever (⟨.Unstarted, 0, false, ([] : List Nat), 0⟩ : Iterqueue Nat)
      rfl (by decide) (by decide) 3).1,
    (timeout_zero_get_blocks_forever (⟨.Unstarted, 0, false, ([] : List Nat), 0⟩ : Iterqueue Nat)
      rfl (by decide) (by decide) 3).2 6⟩

open Iterqueue in
/-- C1: the code does not keep `Canceled` terminal.  At the concrete input:
`cancel()` sets the status to `Canceled` and the canceled flag, but a
subsequent `__enter__` sets the status to `Started` while the one-way
canceled flag is still set (so the spec invariant `canceled == true ⇒
status == Canceled` is broken); `__exit__` bringing the writer count to 0
after a cancel sets the status to `Stopped`; and after the re-entry a `get`
succeeds again, although `cancel`'s own docstring promises it stops gets
irreversibly. -/
theorem cancel_overwritten_by_writer_scope :
    (Iterqueue.cancel (mk0 0 : Iterqueue Nat)).status = .Canceled ∧
    (enterScope (Iterqueue.cancel (mk0 0 : Iterqueue Nat))).status = .Started ∧
    (enterScope (Iterqueue.cancel (mk0 0 : Iterqueue Nat))).canceled = true ∧
    (exitScope (Iterqueue.cancel (enterScope (mk0 0 : Iterqueue Nat)))).status = .Stopped ∧
    Iterqueue.get (enterScope (Iterqueue.cancel (⟨.Started, 1, false, [7], 0⟩ : Iterqueue Nat)))
      true none 0 1 = .ok 7 ⟨.Started, 2, true, [], 0⟩ 0 := by
  decide

open Iterqueue in
/-- C2 counterexample: a `for` loop over a queue that was canceled with an
item still buffered ends normally with no items collected — exactly the
same outcome as over a normally exhausted (`Stopped`, empty) queue — so at
this input the iteration does not end abnormally and the cancellation is
swallowed as an ordinary stop of the loop, refuting the claim as stated. -/
theorem canceled_for_loop_ends_normally :
    forLoop 5 (Iterqueue.cancel (⟨.Started, 1, false, [42], 0⟩ : Iterqueue Nat)) [] =
      .done [] ∧
    forLoop 5 (⟨.Stopped, 0, false, ([] : List Nat), 0⟩ : Iterqueue Nat) [] =
      .done [] := by
  decide

open Iterqueue in
/-- C2 amended: `__next__`'s underlying `get` raises plain `StopIteration`
on exhaustion (`Stopped` and empty) and the distinct exception `Canceled`
on a canceled queue, so a caller invoking `next()` directly can tell the
two apart by the exception's type; but `Canceled` is declared as a subclass
of `StopIteration`, so the `for`-statement protocol — which ends the loop
on any `StopIteration` instance — ends the loop normally in both cases:
in a plain `for` loop the cancellation is swallowed as an ordinary stop. -/
theorem next_canceled_distinct_exception_but_for_loop_stops {α : Type u}
    (s t : Iterqueue α) (hs : s.status = .Canceled)
    (ht : t.status = .Stopped) (hte : t.storage = [])
    (now fuel n : Nat) (acc : List α) :
    nextItem s now (fuel + 1) = .err .canceled 0 ∧
    nextItem t now (fuel + 1) = .err .stopIteration 0 ∧
    PyExc.canceled ≠ PyExc.stopIteration ∧
    PyExc.matchesStopIteration .canceled = true ∧
    forLoop (n + 1) s acc = .done acc ∧
    forLoop (n + 1) t acc = .done acc := by
  have hnc : nextItem s now (fuel + 1) = .err .canceled 0 :=
    get_canceled hs true none now fuel
  have hnt : nextItem t now (fuel + 1) = .err .stopIteration 0 :=
    get_stopped_empty ht hte true none now fuel
  refine ⟨hnc, hnt, by decide, by decide, ?_, ?_⟩
  · have hx : nextItem s 0 1 = .err .canceled 0 := get_canceled hs true none 0 0
    unfold forLoop
    rw [hx]
    simp [PyExc.matchesStopIteration]
  · have hx : nextItem t 0 1 = .err .stopIteration 0 :=
      get_stopped_empty ht hte true none 0 0
    unfold forLoop
    rw [hx]
    simp [PyExc.matchesStopIteration]

/-- C2 amended witness. -/
theorem next_canceled_distinct_exception_but_for_loop_stops_witness :
    (⟨.Canceled, 0, true, [42], 0⟩ : Iterqueue Nat).status = .Canceled ∧
    (⟨.Stopped, 0, false, ([] : List Nat), 0⟩ : Iterqueue Nat).status = .Stopped ∧
    (⟨.Stopped, 0, false, ([] : List Nat), 0⟩ : Iterqueue Nat).storage = [] ∧
    (Iterqueue.nextItem (⟨.Canceled, 0, true, [42], 0⟩ : Iterqueue Nat) 0 1 =
        .err .canceled 0 ∧
      Iterqueue.nextItem (⟨.Stopped, 0, false, ([] : List Nat), 0⟩ : Iterqueue Nat) 0 1 =
        .err .stopIteration 0 ∧
      PyExc.canceled ≠ PyExc.stopIteration ∧
      PyExc.matchesStopIteration .canceled = true ∧
      Iterqueue.forLoop 3 (⟨.Canceled, 0, true, [42], 0⟩ : Iterqueue Nat) [] = .done [] ∧
      Iterqueue.forLoop 3 (⟨.Stopped, 0, false, ([] : List Nat), 0⟩ : Iterqueue Nat) [] =
        .done []) :=
  ⟨rfl, rfl, rfl,
    next_canceled_distinct_exception_but_for_loop_stops
      (⟨.Canceled, 0, true, [42], 0⟩ : Iterqueue Nat)
      (⟨.Stopped, 0, false, ([] : List Nat), 0⟩ : Iterqueue Nat)
      rfl rfl rfl 0 0 2 []⟩

open Iterqueue in
/-- C9: `put_nowait` is `queue.Queue.put_nowait`, i.e. `self.put(item,
block=False)`, which dispatches back to the override `put` — literally the
same `Canceled` check.  On a canceled queue it fails with `Canceled`, and
on a non-canceled bounded queue at capacity it fails with `queue.Full`; in
both cases no new state is produced, so the stored items are unchanged. -/
theorem put_nowait_canceled_check_and_full {α : Type u} (s : Iterqueue α) (x : α) :
    put_nowait s x = put s x false ∧
    (s.status = .Canceled → put_nowait s x = .err .canceled false) ∧
    (s.status ≠ .Canceled → storageFull s = true →
      ∃ warned, put_nowait s x = .err .full warned) := by
  refine ⟨rfl, fun hc => by simp [put_nowait, put, hc], fun hc hf => ?_⟩
  exact ⟨decide (s.status = .Unstarted), by simp [put_nowait, put, hc, hf]⟩

/-- C9 witness: a canceled queue, and a full bounded (`maxsize = 1`)
started queue. -/
theorem put_nowait_canceled_check_and_full_witness :
    (⟨.Canceled, 0, true, [9], 1⟩ : Iterqueue Nat).status = .Canceled ∧
    (⟨.Started, 1, false, [9], 1⟩ : Iterqueue Nat).status ≠ .Canceled ∧
    Iterqueue.storageFull (⟨.Started, 1, false, [9], 1⟩ : Iterqueue Nat) = true ∧
    Iterqueue.put_nowait (⟨.Canceled, 0, true, [9], 1⟩ : Iterqueue Nat) 5 =
      .err .canceled false ∧
    ∃ warned, Iterqueue.put_nowait (⟨.Started, 1, false, [9], 1⟩ : Iterqueue Nat) 5 =
      .err .full warned :=
  ⟨rfl, by decide, by decide,
    (put_nowait_canceled_check_and_full (⟨.Canceled, 0, true, [9], 1⟩ : Iterqueue Nat) 5).2.1 rfl,
    (put_nowait_canceled_check_and_full (⟨.Started, 1, false, [9], 1⟩ : Iterqueue Nat) 5).2.2
      (by decide) (by decide)⟩

/-- C3: the generator catches `StopIteration` but not `queue.Empty`, so on
an empty queue that is not `Stopped` (here `Started` with an open writer,
and `Unstarted`) `iter_nowait` does not stop normally at `WouldBlock` —
the `queue.Empty` raised by `get_nowait` escapes to the caller.  (Draining
works only when the queue is already `Stopped`, where `get_nowait` raises
`StopIteration` instead, third conjunct; a cancellation mid-drain does
surface abnormally, fourth conjunct — as `RuntimeError`, since the
re-raised `Canceled` is a `StopIteration` subclass escaping a generator
frame.)  This contradicts the claim and the function's own docstring,
`Iterate until a queue.Empty, then raise a StopIteration`. -/
theorem iter_nowait_leaks_empty_when_not_stopped :
    Iterqueue.iter_nowait (⟨.Started, 1, false, ([] : List Nat), 0⟩ : Iterqueue Nat) =
      ([], .raised .empty) ∧
    Iterqueue.iter_nowait (⟨.Unstarted, 0, false, ([] : List Nat), 0⟩ : Iterqueue Nat) =
      ([], .raised .empty) ∧
    Iterqueue.iter_nowait (⟨.Stopped, 0, false, [1, 2, 3], 0⟩ : Iterqueue Nat) =
      ([1, 2, 3], .normal) ∧
    Iterqueue.iter_nowait (⟨.Canceled, 0, true, [1], 0⟩ : Iterqueue Nat) =
      ([], .raised .runtimeError) := by
  refine ⟨?_, ?_, ?_, ?_⟩ <;>
    simp [Iterqueue.iter_nowait, Iterqueue.get_nowait, Iterqueue.get,
      Iterqueue.getLoop, Iterqueue.getStep, Iterqueue.mkDeadline,
      PyExc.matchesStopIteration, PyExc.escapeGenerator]

namespace Iterqueue

variable {α : Type u}

/-- `__enter__` always leaves the status `Started`. -/
theorem enterScope_status (s : Iterqueue α) : (enterScope s).status = .Started := by
  by_cases h : s.status = .Started <;> simp [enterScope, h]

/-- A `put` on a `Started` unbounded queue appends the item and warns
nobody. -/
theorem put_started_unbounded (s : Iterqueue α) (x : α)
    (hs : s.status = .Started) (hm : s.maxsize = 0) :
    put s x true = .ok { s with storage := s.storage ++ [x] } false := by
  simp [put, storageFull, hs, hm]

/-- A producer body `for x in items: q.put(x)` on a `Started` unbounded
queue appends the items in order and raises nothing. -/
theorem putSeq_started_unbounded (items : List α) :
    ∀ s : Iterqueue α, s.status = .Started → s.maxsize = 0 →
      putSeq s items = ({ s with storage := s.storage ++ items }, none) := by
  induction items with
  | nil => intro s _ _; simp [putSeq]
  | cons x rest ih =>
    intro s hs hm
    rw [putSeq, put_started_unbounded s x hs hm]
    simp [ih { s with storage := s.storage ++ [x] } hs hm]

/-- A whole writer scope `with q: for x in items: q.put(x)` run on an
unbounded queue with no other open writer appends the items, leaves no
writer open, and closes the queue (status `Stopped`). -/
theorem runWriterScope_ok (s : Iterqueue α) (items : List α)
    (hw : s.writers = 0) (hm : s.maxsize = 0) :
    runWriterScope s items =
      (⟨.Stopped, 0, s.canceledFlag, s.storage ++ items, 0⟩, none) := by
  unfold runWriterScope
  rw [putSeq_started_unbounded items (enterScope s) (enterScope_status s)
    (by simp [enterScope, hm])]
  simp [enterScope, exitScope, hw, hm]

/-- Running one or more writer scopes in sequence on an unbounded queue
with no open writer appends all their items in order and ends `Stopped`
with zero writers. -/
theorem runScopes_ok (xss : List (List α)) :
    ∀ s : Iterqueue α, s.writers = 0 → s.maxsize = 0 → xss ≠ [] →
      runScopes s xss =
        (⟨.Stopped, 0, s.canceledFlag, s.storage ++ xss.flatten, 0⟩, none) := by
  induction xss with
  | nil => intro s _ _ hne; exact absurd rfl hne
  | cons items rest ih =>
    intro s hw hm _
    rw [runScopes, runWriterScope_ok s items hw hm]
    rcases rest with _ | ⟨ys, rest'⟩
    · simp [runScopes]
    · simp [ih ⟨.Stopped, 0, s.canceledFlag, s.storage ++ items, 0⟩ rfl rfl
        (by simp)]

/-- A reader doing one blocking `get()` per buffered item receives exactly
the buffer, in order, with no exception, as long as the queue is not
canceled: with items available, `get` returns the head before looking at
the status beyond the `Canceled` check. -/
theorem getMany_drains (l : List α) :
    ∀ s : Iterqueue α, s.status ≠ .Canceled → s.storage = l →
      getMany s l.length = (l, none) := by
  induction l with
  | nil => intro s _ _; simp [getMany]
  | cons x rest ih =>
    intro s hc hsto
    have hget : Iterqueue.get s true none 0 1 =
        .ok x { s with storage := rest } 0 := by
      unfold Iterqueue.get getLoop getStep mkDeadline
      simp [hc, hsto]
    rw [List.length_cons, getMany, hget]
    simp [ih { s with storage := rest } hc rfl]

end Iterqueue

open Iterqueue in
/-- C7: FIFO exactly-once delivery under single-writer/single-reader
execution.  Writing the item lists `xss` through one writer scope each
(one or more scopes, on a fresh unbounded queue) leaves the queue
`Stopped` with buffer `xss.flatten`; a single reader then performing one
blocking `get()` per item receives exactly `xss.flatten` — the items in put
order, none lost, none duplicated — with no exception. -/
theorem fifo_exactly_once_delivery {α : Type u} (xss : List (List α))
    (hne : xss ≠ []) :
    runScopes (mk0 0 : Iterqueue α) xss =
      (⟨.Stopped, 0, false, xss.flatten, 0⟩, none) ∧
    getMany (⟨.Stopped, 0, false, xss.flatten, 0⟩ : Iterqueue α) xss.flatten.length =
      (xss.flatten, none) := by
  constructor
  · simpa [mk0] using runScopes_ok xss (mk0 0 : Iterqueue α) rfl rfl hne
  · exact getMany_drains xss.flatten
      (⟨.Stopped, 0, false, xss.flatten, 0⟩ : Iterqueue α) (by simp) rfl

namespace Iterqueue

variable {α : Type u}

/-- `k` nested `__enter__` calls add `k` to the writer count. -/
theorem enterScope_iterate_writers (k : Nat) :
    ∀ s : Iterqueue α, (enterScope^[k] s).writers = s.writers + k := by
  induction k with
  | zero => intro s; simp
  | succ n ih =>
    intro s
    rw [Function.iterate_succ_apply']
    simp [enterScope, ih s]
    ring

/-- At least one `__enter__` leaves the status `Started`. -/
theorem enterScope_iterate_status (k : Nat) (hk : 0 < k) (s : Iterqueue α) :
    (enterScope^[k] s).status = .Started := by
  rcases k with _ | n
  · omega
  · rw [Function.iterate_succ_apply']
    exact enterScope_status _

/-- Closing all open scopes of a `Started` queue with `j + 1` writers
drives the writer count to `0` and the status to `Stopped`: every
`__exit__` but the last keeps the status, and the last one — the one whose
decrement reaches `0` — sets `Stopped`. -/
theorem exitScope_drain (j : Nat) :
    ∀ s : Iterqueue α, s.status = .Started → s.writers = (j : Int) + 1 →
      (exitScope^[j + 1] s).writers = 0 ∧ (exitScope^[j + 1] s).status = .Stopped := by
  induction j with
  | zero =>
    intro s _ hw
    rw [Function.iterate_one]
    constructor <;> simp [exitScope, hw]
  | succ n ih =>
    intro s hs hw
    rw [Function.iterate_succ_apply]
    refine ih (exitScope s) ?_ ?_
    · have hlt : ¬(s.writers - 1 < 1) := by rw [hw]; push_cast; omega
      simp [exitScope, hlt, hs]
    · simp [exitScope, hw]

end Iterqueue

open Iterqueue in
/-- C8: on a never-canceled queue, opening `k ≥ 1` writer scopes yields a
writer count of `k` with status `Started`; exiting all `k` scopes yields a
writer count of `0` and status `Stopped`.  And one `__exit__` on a
`Started` queue with at least one open writer decrements the writer count
and sets the status to `Stopped` exactly when the resulting count is `0`. -/
theorem writer_scope_counting {α : Type u} (m k : Nat) (hk : 0 < k)
    (s : Iterqueue α) (hs : s.status = .Started) (hw : 1 ≤ s.writers) :
    (enterScope^[k] (mk0 m : Iterqueue α)).writers = k ∧
    (enterScope^[k] (mk0 m : Iterqueue α)).status = .Started ∧
    (exitScope^[k] (enterScope^[k] (mk0 m : Iterqueue α))).writers = 0 ∧
    (exitScope^[k] (enterScope^[k] (mk0 m : Iterqueue α))).status = .Stopped ∧
    (exitScope s).writers = s.writers - 1 ∧
    ((exitScope s).status = .Stopped ↔ s.writers = 1) := by
  have h1 : (enterScope^[k] (mk0 m : Iterqueue α)).writers = k := by
    rw [enterScope_iterate_writers k (mk0 m)]
    simp [mk0]
  have h2 : (enterScope^[k] (mk0 m : Iterqueue α)).status = .Started :=
    enterScope_iterate_status k hk (mk0 m)
  obtain ⟨j, rfl⟩ : ∃ j, k = j + 1 := ⟨k - 1, by omega⟩
  have h3 := exitScope_drain j (enterScope^[j + 1] (mk0 m : Iterqueue α)) h2
    (by rw [h1]; push_cast; ring)
  refine ⟨h1, h2, h3.1, h3.2, by simp [exitScope], ?_⟩
  by_cases h4 : s.writers = 1
  · simp [exitScope, h4]
  · have hlt : ¬(s.writers - 1 < 1) := by omega
    simp [exitScope, hlt, hs, h4]

/-- C8 witness: `m = 0`, `k = 2`, and a `Started` queue with three open
writers for the single-exit clause. -/
theorem writer_scope_counting_witness :
    0 < 2 ∧
    (⟨.Started, 3, false, ([] : List Nat), 0⟩ : Iterqueue Nat).status = .Started ∧
    1 ≤ (⟨.Started, 3, false, ([] : List Nat), 0⟩ : Iterqueue Nat).writers ∧
    ((Iterqueue.enterScope^[2] (Iterqueue.mk0 0 : Iterqueue Nat)).writers = 2 ∧
      (Iterqueue.enterScope^[2] (Iterqueue.mk0 0 : Iterqueue Nat)).status = .Started ∧
      (Iterqueue.exitScope^[2]
        (Iterqueue.enterScope^[2] (Iterqueue.mk0 0 : Iterqueue Nat))).writers = 0 ∧
      (Iterqueue.exitScope^[2]
        (Iterqueue.enterScope^[2] (Iterqueue.mk0 0 : Iterqueue Nat))).status = .Stopped ∧
      (Iterqueue.exitScope (⟨.Started, 3, false, ([] : List Nat), 0⟩ : Iterqueue Nat)).writers =
        (⟨.Started, 3, false, ([] : List Nat), 0⟩ : Iterqueue Nat).writers - 1 ∧
      ((Iterqueue.exitScope (⟨.Started, 3, false, ([] : List Nat), 0⟩ : Iterqueue Nat)).status =
          .Stopped ↔
        (⟨.Started, 3, false, ([] : List Nat), 0⟩ : Iterqueue Nat).writers = 1)) :=
  ⟨by decide, rfl, by decide,
    writer_scope_counting 0 2 (by decide)
      (⟨.Started, 3, false, ([] : List Nat), 0⟩ : Iterqueue Nat) rfl (by decide)⟩

/-- C7 witness: two scopes writing `[1, 2]` and `[3]`; the reader gets
`[1, 2, 3]`. -/
theorem fifo_exactly_once_delivery_witness :
    ([[1, 2], [3]] : List (List Nat)) ≠ [] ∧
    Iterqueue.runScopes (Iterqueue.mk0 0 : Iterqueue Nat) [[1, 2], [3]] =
      (⟨.Stopped, 0, false, [1, 2, 3], 0⟩, none) ∧
    Iterqueue.getMany (⟨.Stopped, 0, false, [1, 2, 3], 0⟩ : Iterqueue Nat) 3 =
      ([1, 2, 3], none) :=
  ⟨by decide, fifo_exactly_once_delivery [[1, 2], [3]] (by decide)⟩
